import Mathlib

/-!
Shallow embedding of the editor's asset/inspector glue code:

* `src/renderer/editor/components/assets-browser/files/move/video.ts`
  (`AssetsBrowserVideoMoveHandler.isFileUsed` / `moveFile`),
* `src/renderer/editor/inspectors/rendering-inspector.tsx`
  (the `Enabled` checkbox handlers),
* `src/renderer/editor/inspectors/script-inspector.tsx`
  (`_getInspectorValues`, `_updateScriptVisibleProperties`, `_refreshDecorators`,
  `componentWillUnmount`),
* `src/editor/tools/default-scene.ts` (`DefaultScene.CreateLabel`),

together with the theorems settling the specification claims about them.
Strings are modelled as lists of characters so that the JavaScript string
operations used by the code (`String.prototype.replace` with a string pattern,
`String.prototype.lastIndexOf`, `substr`) can be given their exact semantics.
-/

set_option autoImplicit false

namespace EditorProof

/-- Strings of the embedded program, as lists of characters. -/
abbrev Str := List Char

/-- Drops every leading path separator of a string. -/
def dropLeadingSlashes : Str → Str
  | [] => []
  | c :: rest => if c = '/' then dropLeadingSlashes rest else c :: rest

/-- Drops every trailing path separator of a string. -/
def dropTrailingSlashes (s : Str) : Str :=
  (dropLeadingSlashes s.reverse).reverse

/-- Model of Node's `path.join` on two segments: the segments are concatenated
with a single `/`, collapsing the separators at the seam (so
`join("a/", "/") = "a/"`, `join("a", "b") = "a/b"`).  Resolution of `.` and
`..` segments is not modelled; the repository joins asset directories and
asset names, which contain no dot segments. -/
def pathJoin (a b : Str) : Str :=
  if a = [] then b else dropTrailingSlashes a ++ '/' :: dropLeadingSlashes b

/-- Model of the JavaScript expression `s.replace(pat, "")` for a *string*
pattern: only the first occurrence of `pat` in `s` is removed; when `pat`
does not occur, `s` is returned unchanged. -/
def removeFirstOcc (pat : Str) : Str → Str
  | [] => []
  | c :: rest =>
    if List.isPrefixOf pat (c :: rest) then (c :: rest).drop pat.length
    else c :: removeFirstOcc pat rest

/-- Spec-side definition (for the refinement comparison in claims C1 and C4):
removal of `pat` as a *prefix* of `s`, which is what the spec's
"with the assets-directory prefix (including the trailing path separator)
removed" describes.  When `pat` is not a prefix of `s`, nothing is removed. -/
def dropPrefixStr (pat s : Str) : Str :=
  if List.isPrefixOf pat s then s.drop pat.length else s

/-- A texture of the Babylon.js scene, projected onto the two facts the video
move handler inspects: whether it is a `VideoTexture` (`t instanceof
VideoTexture`) and its `name`. -/
structure Texture where
  isVideo : Bool
  name : Str
deriving DecidableEq

/-- The state of the editor visible to `AssetsBrowserVideoMoveHandler`:
`this._editor.assetsBrowser.assetsDirectory` and `this._editor.scene`, the
latter `none` when no scene is loaded (the source dereferences it with a
non-null assertion `this._editor.scene!`). -/
structure EditorState where
  assetsDirectory : Str
  scene : Option (List Texture)
deriving DecidableEq

/-- Embedding of `AssetsBrowserVideoMoveHandler.isFileUsed(path)`:

```ts
const relativePath = path.replace(join(this._editor.assetsBrowser.assetsDirectory, "/"), "");
return this._editor.scene!.textures.find((t) => t instanceof VideoTexture && t.name === relativePath) ? true : false;
```

Accessing `.textures` on a `null` scene throws; this is rendered as
`Except.error`. -/
def isFileUsed (e : EditorState) (path : Str) : Except String Bool :=
  let relativePath := removeFirstOcc (pathJoin e.assetsDirectory ("/".toList)) path
  match e.scene with
  | none => Except.error "TypeError: cannot read textures of null"
  | some textures =>
    Except.ok (textures.any fun t => t.isVideo && t.name == relativePath)

/-- Embedding of `AssetsBrowserVideoMoveHandler.moveFile(from, to)`:

```ts
const textures = this._editor.scene!.textures.filter((t) => t instanceof VideoTexture);
textures.forEach((tex) => {
    const path = join(this._editor.assetsBrowser.assetsDirectory, tex.name);
    if (path === from) {
        tex.name = to.replace(join(this._editor.assetsBrowser.assetsDirectory, "/"), "");
    }
});
```

The source filters the scene's texture array to the video textures and mutates
the matching ones in place; the resulting contents of `scene.textures` is the
returned list (the array object itself is never reassigned). -/
def moveFile (e : EditorState) (fromPath toPath : Str) : Except String (List Texture) :=
  match e.scene with
  | none => Except.error "TypeError: cannot read textures of null"
  | some textures =>
    Except.ok (textures.map fun t =>
      if t.isVideo && (pathJoin e.assetsDirectory t.name == fromPath) then
        { t with name := removeFirstOcc (pathJoin e.assetsDirectory ("/".toList)) toPath }
      else t)

/-- The relation claim C1 asserts between a texture before and after
`moveFile`, with the spec's "prefix removed" replaced by what the code does:
removal of the first occurrence of the assets directory followed by the path
separator. -/
def movedName (dir fromPath toPath : Str) (told tnew : Texture) : Prop :=
  told.isVideo = true → pathJoin dir told.name = fromPath →
    tnew = { told with name := removeFirstOcc (pathJoin dir ("/".toList)) toPath }

/-- The frame condition claim C5 asserts between a texture before and after
`moveFile`: a texture that is not a video texture, or whose name joined onto
the assets directory differs from the moved path, is untouched, and no
texture's video-ness changes. -/
def untouchedUnlessMoved (dir fromPath : Str) (told tnew : Texture) : Prop :=
  (told.isVideo = false → tnew = told) ∧
  (pathJoin dir told.name ≠ fromPath → tnew = told) ∧
  tnew.isVideo = told.isVideo

/-- Equality of `Except` values is decidable; used to evaluate the embedded
handlers inside `decide`. -/
instance {ε α : Type} [DecidableEq ε] [DecidableEq α] : DecidableEq (Except ε α) := fun x y =>
  match x, y with
  | Except.error a, Except.error b =>
    if h : a = b then isTrue (by rw [h]) else isFalse (fun he => h (by cases he; rfl))
  | Except.ok a, Except.ok b =>
    if h : a = b then isTrue (by rw [h]) else isFalse (fun he => h (by cases he; rfl))
  | Except.error _, Except.ok _ => isFalse (by intro he; cases he)
  | Except.ok _, Except.error _ => isFalse (by intro he; cases he)

theorem moveFile_forall₂ (e : EditorState) (textures : List Texture)
    (h : e.scene = some textures) (fromPath toPath : Str) :
    ∃ result, moveFile e fromPath toPath = Except.ok result ∧
      List.Forall₂ (fun told tnew =>
        movedName e.assetsDirectory fromPath toPath told tnew ∧
        untouchedUnlessMoved e.assetsDirectory fromPath told tnew) textures result := by
  refine ⟨_, by rw [moveFile, h], ?_⟩
  rw [List.forall₂_map_right_iff]
  refine List.forall₂_same.2 fun t _ => ?_
  dsimp only
  by_cases hc : (t.isVideo && (pathJoin e.assetsDirectory t.name == fromPath)) = true
  · have hc' : t.isVideo = true ∧ pathJoin e.assetsDirectory t.name = fromPath := by
      simpa using hc
    rw [if_pos hc]
    refine ⟨fun _ _ => rfl, fun hv => ?_, fun hne => ?_, rfl⟩
    · rw [hc'.1] at hv; cases hv
    · exact absurd hc'.2 hne
  · have hc' : ¬(t.isVideo = true ∧ pathJoin e.assetsDirectory t.name = fromPath) := by
      simpa using hc
    rw [if_neg hc]
    exact ⟨fun hv hp => absurd ⟨hv, hp⟩ hc', fun _ => rfl, fun _ => rfl, rfl⟩

/-- Claim C1, counterexample.  With assets directory `"a"`, a loaded scene
holding one video texture named `"x"`, `from = "a/x"` (which is the texture's
name joined onto the assets directory) and `to = "ba/c"`, the code sets the
texture's name to `"bc"` — it removed the first occurrence of `"a/"` in the
middle of `to` — whereas the claim's "prefix removed" reading demands the name
`"ba/c"` (the prefix `"a/"` does not occur at the start of `to`, so prefix
removal changes nothing). -/
theorem moveFile_claim1_counterexample :
    pathJoin ("a".toList) ("x".toList) = "a/x".toList ∧
    moveFile { assetsDirectory := "a".toList, scene := some [{ isVideo := true, name := "x".toList }] }
        ("a/x".toList) ("ba/c".toList)
      = Except.ok [{ isVideo := true, name := "bc".toList }] ∧
    "bc".toList ≠ dropPrefixStr (pathJoin ("a".toList) ("/".toList)) ("ba/c".toList) := by
  decide

/-- Claim C1 (amended): every video texture of the loaded scene whose name
joined onto the assets directory equals `from` gets its name set to `to` with
the *first occurrence* of the assets directory followed by the path separator
removed (this coincides with prefix removal whenever `to` starts with that
prefix). -/
theorem moveFile_renames_matching (e : EditorState) (textures : List Texture)
    (h : e.scene = some textures) (fromPath toPath : Str) :
    ∃ result, moveFile e fromPath toPath = Except.ok result ∧
      List.Forall₂ (movedName e.assetsDirectory fromPath toPath) textures result := by
  obtain ⟨result, hres, hall⟩ := moveFile_forall₂ e textures h fromPath toPath
  exact ⟨result, hres, hall.imp fun _ _ hab => hab.1⟩

/-- Claim C1, witness: the amended claim evaluated on a concrete moved file. -/
theorem moveFile_renames_matching_witness :
    ∃ result,
      moveFile { assetsDirectory := "assets".toList, scene := some [{ isVideo := true, name := "videos/a.mp4".toList }] }
          ("assets/videos/a.mp4".toList) ("assets/videos/b.mp4".toList)
        = Except.ok result ∧
      List.Forall₂ (movedName ("assets".toList) ("assets/videos/a.mp4".toList) ("assets/videos/b.mp4".toList))
        [{ isVideo := true, name := "videos/a.mp4".toList }] result :=
  moveFile_renames_matching _ _ rfl _ _

/-- Claim C5: `moveFile` changes nothing but the names of the matching video
textures: non-video textures and non-matching video textures are untouched,
no texture's video-ness changes, and the texture list keeps its length and
order (the result is positionwise related to the input list). -/
theorem moveFile_frame (e : EditorState) (textures : List Texture)
    (h : e.scene = some textures) (fromPath toPath : Str) :
    ∃ result, moveFile e fromPath toPath = Except.ok result ∧
      result.length = textures.length ∧
      List.Forall₂ (untouchedUnlessMoved e.assetsDirectory fromPath) textures result := by
  obtain ⟨result, hres, hall⟩ := moveFile_forall₂ e textures h fromPath toPath
  exact ⟨result, hres, (hall.length_eq).symm, hall.imp fun _ _ hab => hab.2⟩

/-- Claim C5, witness: the frame condition evaluated on a concrete scene with
one matching video texture, one non-matching video texture and one non-video
texture. -/
theorem moveFile_frame_witness :
    ∃ result,
      moveFile { assetsDirectory := "assets".toList,
                 scene := some [{ isVideo := true, name := "a.mp4".toList },
                                { isVideo := true, name := "other.mp4".toList },
                                { isVideo := false, name := "a.mp4".toList }] }
          ("assets/a.mp4".toList) ("assets/b.mp4".toList)
        = Except.ok result ∧
      result.length = [({ isVideo := true, name := "a.mp4".toList } : Texture),
                       { isVideo := true, name := "other.mp4".toList },
                       { isVideo := false, name := "a.mp4".toList }].length ∧
      List.Forall₂ (untouchedUnlessMoved ("assets".toList) ("assets/a.mp4".toList))
        [{ isVideo := true, name := "a.mp4".toList },
         { isVideo := true, name := "other.mp4".toList },
         { isVideo := false, name := "a.mp4".toList }] result :=
  moveFile_frame _ _ rfl _ _

/-- Claim C4, counterexample.  With assets directory `"a"` and a loaded scene
holding one video texture named `"bc"`, the call `isFileUsed("ba/c")` returns
`true` — `"ba/c".replace("a/", "")` removes the first occurrence of `"a/"` in
the middle of the path, yielding `"bc"` — although no texture's name equals
`"ba/c"` with the assets-directory *prefix* removed (that prefix does not
occur at the start of `"ba/c"`, so the claim demands the result `false`). -/
theorem isFileUsed_claim4_counterexample :
    isFileUsed { assetsDirectory := "a".toList, scene := some [{ isVideo := true, name := "bc".toList }] }
        ("ba/c".toList) = Except.ok true ∧
    ¬ (∃ t ∈ [({ isVideo := true, name := "bc".toList } : Texture)],
          t.isVideo = true ∧
          t.name = dropPrefixStr (pathJoin ("a".toList) ("/".toList)) ("ba/c".toList)) := by
  decide

/-- Claim C4 (amended): with a scene loaded, `isFileUsed(path)` returns `true`
if and only if some texture of the scene is a video texture whose name equals
`path` with the *first occurrence* of the assets directory followed by the
path separator removed (prefix removal whenever `path` starts with that
prefix).  The handler performs no writes: its embedding returns only the
Boolean, matching the absence of any assignment in the source. -/
theorem isFileUsed_iff (e : EditorState) (textures : List Texture)
    (h : e.scene = some textures) (path : Str) :
    isFileUsed e path = Except.ok true ↔
      ∃ t ∈ textures, t.isVideo = true ∧
        t.name = removeFirstOcc (pathJoin e.assetsDirectory ("/".toList)) path := by
  rw [isFileUsed, h]
  simp only [Except.ok.injEq, List.any_eq_true, Bool.and_eq_true, beq_iff_eq]

/-- Claim C4, witness: the amended claim evaluated on a concrete scene, in
both the positive and the negative direction. -/
theorem isFileUsed_iff_witness :
    (isFileUsed { assetsDirectory := "assets".toList, scene := some [{ isVideo := true, name := "a.mp4".toList }] }
        ("assets/a.mp4".toList) = Except.ok true ↔
      ∃ t ∈ [({ isVideo := true, name := "a.mp4".toList } : Texture)], t.isVideo = true ∧
        t.name = removeFirstOcc (pathJoin ("assets".toList) ("/".toList)) ("assets/a.mp4".toList)) ∧
    (isFileUsed { assetsDirectory := "assets".toList, scene := some [{ isVideo := false, name := "a.mp4".toList }] }
        ("assets/a.mp4".toList) = Except.ok true ↔
      ∃ t ∈ [({ isVideo := false, name := "a.mp4".toList } : Texture)], t.isVideo = true ∧
        t.name = removeFirstOcc (pathJoin ("assets".toList) ("/".toList)) ("assets/a.mp4".toList)) :=
  ⟨isFileUsed_iff _ _ rfl _, isFileUsed_iff _ _ rfl _⟩

/-- Claim C9: both handlers presuppose a loaded scene.  When `editor.scene` is
`null` both throw (the embedding returns `Except.error`) instead of returning
a result, and when a scene is loaded both complete without error. -/
theorem videoHandlers_require_scene (e : EditorState) (path fromPath toPath : Str) :
    (e.scene = none →
      (∃ msg, isFileUsed e path = Except.error msg) ∧
      (∃ msg, moveFile e fromPath toPath = Except.error msg)) ∧
    (∀ textures, e.scene = some textures →
      (∃ b, isFileUsed e path = Except.ok b) ∧
      (∃ result, moveFile e fromPath toPath = Except.ok result)) := by
  constructor
  · intro h
    exact ⟨⟨_, by rw [isFileUsed, h]⟩, ⟨_, by rw [moveFile, h]⟩⟩
  · intro textures h
    exact ⟨⟨_, by rw [isFileUsed, h]⟩, ⟨_, by rw [moveFile, h]⟩⟩

/-- Claim C9, witness: both handlers fail on a `null` scene and succeed on a
loaded scene, at concrete inputs. -/
theorem videoHandlers_require_scene_witness :
    (∃ msg, isFileUsed { assetsDirectory := "a".toList, scene := none } ("p".toList) = Except.error msg) ∧
    (∃ msg, moveFile { assetsDirectory := "a".toList, scene := none } ("p".toList) ("q".toList) = Except.error msg) ∧
    (∃ b, isFileUsed { assetsDirectory := "a".toList, scene := some [] } ("p".toList) = Except.ok b) ∧
    (∃ result, moveFile { assetsDirectory := "a".toList, scene := some [] } ("p".toList) ("q".toList) = Except.ok result) :=
  ⟨((videoHandlers_require_scene { assetsDirectory := "a".toList, scene := none } ("p".toList) ("p".toList) ("q".toList)).1 rfl).1,
   ((videoHandlers_require_scene { assetsDirectory := "a".toList, scene := none } ("p".toList) ("p".toList) ("q".toList)).1 rfl).2,
   ((videoHandlers_require_scene { assetsDirectory := "a".toList, scene := some [] } ("p".toList) ("p".toList) ("q".toList)).2 [] rfl).1,
   ((videoHandlers_require_scene { assetsDirectory := "a".toList, scene := some [] } ("p".toList) ("p".toList) ("q".toList)).2 [] rfl).2⟩

namespace Control

/-- `Control.VERTICAL_ALIGNMENT_TOP` of babylonjs-gui. -/
def VERTICAL_ALIGNMENT_TOP : Nat := 0

/-- `Control.HORIZONTAL_ALIGNMENT_RIGHT` of babylonjs-gui. -/
def HORIZONTAL_ALIGNMENT_RIGHT : Nat := 1

end Control

/-- An opaque reference to a mesh, used only as the target of
`linkWithMesh`. -/
structure MeshRef where
  id : Nat
deriving DecidableEq

/-- A babylonjs-gui `TextBlock`, projected onto the fields `CreateLabel`
assigns. -/
structure TextBlockM where
  text : Str
  color : Str
deriving DecidableEq

/-- A babylonjs-gui `Rectangle`, projected onto the fields `CreateLabel`
assigns, plus its child controls and the mesh it is linked with (none before
`linkWithMesh` is called). -/
structure RectangleM where
  name : Str
  background : Str
  height : Str
  alpha : Rat
  width : Str
  cornerRadius : Int
  thickness : Int
  linkOffsetY : Int
  top : Str
  zIndex : Int
  verticalAlignment : Nat
  horizontalAlignment : Nat
  children : List TextBlockM
  linkedMesh : Option MeshRef
deriving DecidableEq

/-- A babylonjs-gui `Line`, projected onto the fields `CreateLabel`
assigns. -/
structure LineM where
  alpha : Rat
  lineWidth : Int
  dash : List Int
  linkedMesh : Option MeshRef
  connectedControl : Option RectangleM
deriving DecidableEq

/-- A control added to the fullscreen GUI texture. -/
inductive GuiControl where
  | rect (r : RectangleM)
  | line (l : LineM)
deriving DecidableEq

/-- A babylonjs-gui `AdvancedDynamicTexture`: the list of controls added to
it, in insertion order (`addControl` appends). -/
structure AdvancedDynamicTexture where
  controls : List GuiControl
deriving DecidableEq

/-- Embedding of `DefaultScene.CreateLabel(gui, mesh, str, lines, width,
height)` (src/editor/tools/default-scene.ts, lines 27-62).  The source mutates
the rectangle after `gui.addControl(label)`; since the GUI holds a reference,
the recorded control carries the field values current when the function
returns: the text block child is added in every branch, and
`label.linkWithMesh(mesh)` is called only in the `!lines` branch.  Returns the
updated GUI texture and the returned rectangle. -/
def CreateLabel (gui : AdvancedDynamicTexture) (mesh : MeshRef) (s : Str)
    (lines : Bool) (width height : Str) : AdvancedDynamicTexture × RectangleM :=
  let text : TextBlockM := { text := s, color := "white".toList }
  let label : RectangleM :=
    { name := s
      background := "black".toList
      height := height
      alpha := 1 / 2
      width := width
      cornerRadius := 20
      thickness := 1
      linkOffsetY := 30
      top := "0%".toList
      zIndex := 5
      verticalAlignment := Control.VERTICAL_ALIGNMENT_TOP
      horizontalAlignment := Control.HORIZONTAL_ALIGNMENT_RIGHT
      children := [text]
      linkedMesh := none }
  if !lines then
    let label := { label with linkedMesh := some mesh }
    ({ controls := gui.controls ++ [GuiControl.rect label] }, label)
  else
    let line : LineM :=
      { alpha := 1 / 2
        lineWidth := 5
        dash := [5, 10]
        linkedMesh := some mesh
        connectedControl := some label }
    ({ controls := gui.controls ++ [GuiControl.rect label, GuiControl.line line] }, label)

/-- Claim C7: `CreateLabel` adds to the GUI a rectangle named `str` containing
a white text block displaying `str`, and returns it.  With `lines = false`
the rectangle itself is linked with the mesh and is the only control added;
with `lines = true` the rectangle is not linked, and a dashed line is
additionally added to the GUI, linked with the mesh and connected to the
rectangle. -/
theorem CreateLabel_spec (gui : AdvancedDynamicTexture) (mesh : MeshRef) (s width height : Str) :
    ((CreateLabel gui mesh s false width height).2.name = s ∧
     (CreateLabel gui mesh s false width height).2.children
       = [{ text := s, color := "white".toList }] ∧
     (CreateLabel gui mesh s false width height).2.linkedMesh = some mesh ∧
     (CreateLabel gui mesh s false width height).1.controls
       = gui.controls ++ [GuiControl.rect (CreateLabel gui mesh s false width height).2]) ∧
    ((CreateLabel gui mesh s true width height).2.name = s ∧
     (CreateLabel gui mesh s true width height).2.children
       = [{ text := s, color := "white".toList }] ∧
     (CreateLabel gui mesh s true width height).2.linkedMesh = none ∧
     ∃ ln, (CreateLabel gui mesh s true width height).1.controls
             = gui.controls ++ [GuiControl.rect (CreateLabel gui mesh s true width height).2,
                                GuiControl.line ln] ∧
           ln.linkedMesh = some mesh ∧
           ln.connectedControl = some (CreateLabel gui mesh s true width height).2 ∧
           ln.dash ≠ []) :=
  ⟨⟨rfl, rfl, rfl, rfl⟩, rfl, rfl, rfl, ⟨_, rfl, rfl, rfl, by simp⟩⟩

namespace RenderingInspector

/-- The slice of the `RenderingInspector` React state holding the three
`Enabled` checkbox values (`ssao2Enabled`, `motionBlurEnabled`,
`ssrEnabled`). -/
structure RState where
  ssao2Enabled : Bool
  motionBlurEnabled : Bool
  ssrEnabled : Bool
deriving DecidableEq

/-- An invocation of one of the `SceneSettings` setters, with the argument it
receives. -/
inductive SettingsCall where
  | setSSAOEnabled (v : Bool)
  | setMotionBlurEnabled (v : Bool)
  | setScreenSpaceReflectionsEnabled (v : Bool)
deriving DecidableEq

/-- The post-process enabled flags of the engine. -/
structure EngineState where
  ssaoEnabled : Bool
  motionBlurEnabled : Bool
  ssrEnabled : Bool
deriving DecidableEq

/-- Modelled from the spec: the `SceneSettings` setters live outside the
sampled sources; the spec describes the component as "calling
setters/getters on the engine's pipeline objects", so each setter sets the
corresponding post-process's enabled state to its argument. -/
def applySettingsCall (en : EngineState) : SettingsCall → EngineState
  | SettingsCall.setSSAOEnabled v => { en with ssaoEnabled := v }
  | SettingsCall.setMotionBlurEnabled v => { en with motionBlurEnabled := v }
  | SettingsCall.setScreenSpaceReflectionsEnabled v => { en with ssrEnabled := v }

/-- Modelled from the spec: the `InspectorBoolean` form control
(`../gui/inspector/boolean`, not among the sampled sources).  The spec
describes the component as one "that mirrors the state of a rendering
pipeline object … into form controls": on a user change with new checked
value `v` the control first writes `v` to the bound `object[property]` and
then invokes its `onChange` callback with `v`. -/
def inspectorBooleanChange {σ : Type} (writeProp : σ → Bool → σ)
    (onChange : σ → Bool → σ × List SettingsCall) (st : σ) (v : Bool) :
    σ × List SettingsCall :=
  onChange (writeProp st v) v

/-- The `onChange` handler of the SSAO 2 `Enabled` checkbox
(rendering-inspector.tsx, lines 95-98): it calls
`SceneSettings.SetSSAOEnabled(this.editor, this.state.ssao2Enabled)` — note,
with the *current state field*, not with its `v` parameter — and then
`this.setState({ ssao2Enabled: v })`. -/
def ssao2EnabledOnChange (st : RState) (v : Bool) : RState × List SettingsCall :=
  ({ st with ssao2Enabled := v }, [SettingsCall.setSSAOEnabled st.ssao2Enabled])

/-- The `onChange` handler of the Motion Blur `Enabled` checkbox
(rendering-inspector.tsx, lines 124-127). -/
def motionBlurEnabledOnChange (st : RState) (v : Bool) : RState × List SettingsCall :=
  ({ st with motionBlurEnabled := v }, [SettingsCall.setMotionBlurEnabled st.motionBlurEnabled])

/-- The `onChange` handler of the Screen Space Reflections `Enabled` checkbox
(rendering-inspector.tsx, lines 151-154). -/
def ssrEnabledOnChange (st : RState) (v : Bool) : RState × List SettingsCall :=
  ({ st with ssrEnabled := v }, [SettingsCall.setScreenSpaceReflectionsEnabled st.ssrEnabled])

/-- A full user change of the SSAO 2 `Enabled` checkbox: the widget writes the
new value to `this.state.ssao2Enabled` (its bound `object[property]`), then
runs the inspector's `onChange` handler.  Returns the final state and the
setter invocations. -/
def handleSSAO2EnabledChange (st : RState) (v : Bool) : RState × List SettingsCall :=
  inspectorBooleanChange (fun s b => { s with ssao2Enabled := b }) ssao2EnabledOnChange st v

/-- A full user change of the Motion Blur `Enabled` checkbox. -/
def handleMotionBlurEnabledChange (st : RState) (v : Bool) : RState × List SettingsCall :=
  inspectorBooleanChange (fun s b => { s with motionBlurEnabled := b }) motionBlurEnabledOnChange st v

/-- A full user change of the Screen Space Reflections `Enabled` checkbox. -/
def handleSSREnabledChange (st : RState) (v : Bool) : RState × List SettingsCall :=
  inspectorBooleanChange (fun s b => { s with ssrEnabled := b }) ssrEnabledOnChange st v

/-- Claim C2: changing any of the three `Enabled` checkboxes to a new value
`v` invokes the corresponding `SceneSettings` setter with exactly `v` (the
handler passes `this.state.xxxEnabled`, but the widget has already written
`v` there), the form control's state equals `v` afterwards, and applying the
recorded setter calls to the engine leaves the corresponding post-process
enabled state equal to the form control's state. -/
theorem enabledCheckbox_setter_gets_new_value (st : RState) (v : Bool) (en : EngineState) :
    (handleSSAO2EnabledChange st v).2 = [SettingsCall.setSSAOEnabled v] ∧
    (handleSSAO2EnabledChange st v).1.ssao2Enabled = v ∧
    (((handleSSAO2EnabledChange st v).2.foldl applySettingsCall en).ssaoEnabled
      = (handleSSAO2EnabledChange st v).1.ssao2Enabled) ∧
    (handleMotionBlurEnabledChange st v).2 = [SettingsCall.setMotionBlurEnabled v] ∧
    (handleMotionBlurEnabledChange st v).1.motionBlurEnabled = v ∧
    (((handleMotionBlurEnabledChange st v).2.foldl applySettingsCall en).motionBlurEnabled
      = (handleMotionBlurEnabledChange st v).1.motionBlurEnabled) ∧
    (handleSSREnabledChange st v).2 = [SettingsCall.setScreenSpaceReflectionsEnabled v] ∧
    (handleSSREnabledChange st v).1.ssrEnabled = v ∧
    (((handleSSREnabledChange st v).2.foldl applySettingsCall en).ssrEnabled
      = (handleSSREnabledChange st v).1.ssrEnabled) :=
  ⟨rfl, rfl, rfl, rfl, rfl, rfl, rfl, rfl, rfl⟩

end RenderingInspector

/-- The part of a string after its last `/` (the whole string when it has
none); the basename used by `extname`. -/
def afterLastSlash (s : Str) : Str :=
  (s.reverse.takeWhile fun c => !(c == '/')).reverse

/-- Model of JavaScript `s.lastIndexOf(pat)` for a substring pattern: the
largest index at which `pat` occurs in `s`, `-1` when it does not occur, and
`s.length` for the empty pattern. -/
def lastIndexOfSub (s pat : Str) : Int :=
  match (List.range (s.length + 1)).reverse.find? fun i => List.isPrefixOf pat (s.drop i) with
  | some i => Int.ofNat i
  | none => -1

/-- Model of Node's `path.extname`: the part of the basename from its last
`.` on, empty when the basename has no `.` or only a leading one. -/
def extname (s : Str) : Str :=
  let base := afterLastSlash s
  let i := lastIndexOfSub base (".".toList)
  if (0 : Int) < i then base.drop i.toNat else []

/-- Collapses a run of `/` after a preceding `/` (helper of
`normalizePath`). -/
def dedupSlashAux : Char → Str → Str
  | _, [] => []
  | prev, c :: rest =>
    if prev = '/' ∧ c = '/' then dedupSlashAux prev rest else c :: dedupSlashAux c rest

/-- Model of Node's `path.normalize` restricted to collapsing repeated
separators; resolution of `.` and `..` segments is not modelled (the script
names normalized here contain no dot segments). -/
def normalizePath : Str → Str
  | [] => []
  | c :: rest => c :: dedupSlashAux c rest

namespace ScriptInspector

/-- The observable actions of `ScriptInspector._updateScriptVisibleProperties`
(script-inspector.tsx, lines 259-298), in program order:
`closeWatcher` is `this._scriptWatcher?.close()` (and the close performed by
`componentWillUnmount`); `forceUpdate` the early `this.forceUpdate()`;
`setRefreshing` the `this.setState({ refresing: … })` calls;
`refreshDecoratorsCall` the awaited `this._refreshDecorators()`;
`pathExistsCheck k r` the `k`-th evaluation of `await pathExists(jsPath)`
with its result; `waitMs` an `await Tools.Wait(500)`; `installWatcher` the
`watch(jsPath, …)` call; `getInspectorValuesCall` the awaited
`SandboxMain.GetInspectorValues(jsPath)`; `storeInspectorValues` the final
`this.setState({ refresing: false, inspectorValues })`. -/
inductive SEvent where
  | closeWatcher
  | forceUpdate
  | setRefreshing (b : Bool)
  | refreshDecoratorsCall
  | pathExistsCheck (k : Nat) (res : Bool)
  | waitMs (n : Nat)
  | installWatcher (path : Str)
  | getInspectorValuesCall (path : Str)
  | storeInspectorValues
deriving DecidableEq

/-- Why the polling loop stopped: the file was found to exist, or the
component was found to be unmounted. -/
inductive LoopExit where
  | fileExists
  | unmounted
deriving DecidableEq

/-- The environment of a `_updateScriptVisibleProperties` run:
`this.selectedObject.metadata.script.name`, `WorkSpace.DirPath!`, and two
oracles giving the value of `this.isMounted` and of `await pathExists(jsPath)`
at their `k`-th read (reads are numbered jointly: iteration `k` of the loop
reads `isMounted` and, when mounted, `pathExists`; the check after the loop
performs one further `isMounted` read). -/
structure ScriptEnv where
  scriptName : Str
  dirPath : Str
  mountedAt : Nat → Bool
  existsAt : Nat → Bool

/-- `const extension = extname(name); const extensionIndex =
name.lastIndexOf(extension);` -/
def extensionIndexOf (name : Str) : Int :=
  lastIndexOfSub name (extname name)

/-- `const jsName = normalize(`${name.substr(0, extensionIndex)}.js`);` -/
def jsNameOf (name : Str) : Str :=
  normalizePath (name.take (extensionIndexOf name).toNat ++ ".js".toList)

/-- `const jsPath = join(WorkSpace.DirPath!, "build", jsName);` -/
def jsPathOf (dirPath name : Str) : Str :=
  pathJoin (pathJoin dirPath ("build".toList)) (jsNameOf name)

/-- The waiting loop `while (this.isMounted && !(await pathExists(jsPath)))
await Tools.Wait(500);`, with `fuel` bounding the number of iterations
modelled (`none` means the loop is still running after `fuel` condition
checks).  Returns the emitted events, the index of the next `isMounted`
read, and the reason the loop stopped.  `&&` short-circuits: when
`isMounted` reads false, `pathExists` is not consulted. -/
def pollLoop (mountedAt existsAt : Nat → Bool) : Nat → Nat → Option (List SEvent × Nat × LoopExit)
  | 0, _ => none
  | fuel + 1, k =>
    if mountedAt k then
      if existsAt k then some ([SEvent.pathExistsCheck k true], k + 1, LoopExit.fileExists)
      else
        match pollLoop mountedAt existsAt fuel (k + 1) with
        | none => none
        | some (tr, k', ex) =>
          some (SEvent.pathExistsCheck k false :: SEvent.waitMs 500 :: tr, k', ex)
    else some ([], k + 1, LoopExit.unmounted)

/-- Embedding of `ScriptInspector._updateScriptVisibleProperties` as the
trace of its observable actions plus the watcher it leaves installed (the
watched path, `none` when no watcher is installed).  Mirrors the source: the
current watcher is closed and nulled; with script name `"None"` only
`forceUpdate` runs; otherwise `refresing` is set and `_refreshDecorators` is
awaited; a script name whose `lastIndexOf(extname(name))` is `-1` aborts;
since `_scriptWatcher` was just nulled, the `if (!this._scriptWatcher)` guard
always passes, so the run polls for the compiled file, rechecks `isMounted`,
installs the watcher, queries the sandbox and stores the result. -/
def updateScriptVisibleProperties (env : ScriptEnv) (fuel : Nat) :
    Option (List SEvent × Option Str) :=
  if env.scriptName = "None".toList then
    some ([SEvent.closeWatcher, SEvent.forceUpdate], none)
  else if extensionIndexOf env.scriptName = -1 then
    some ([SEvent.closeWatcher, SEvent.setRefreshing true, SEvent.refreshDecoratorsCall], none)
  else
    match pollLoop env.mountedAt env.existsAt fuel 0 with
    | none => none
    | some (loopTr, k, _ex) =>
      if env.mountedAt k then
        some ([SEvent.closeWatcher, SEvent.setRefreshing true, SEvent.refreshDecoratorsCall]
                ++ loopTr
                ++ [SEvent.installWatcher (jsPathOf env.dirPath env.scriptName),
                    SEvent.getInspectorValuesCall (jsPathOf env.dirPath env.scriptName),
                    SEvent.storeInspectorValues],
              some (jsPathOf env.dirPath env.scriptName))
      else
        some ([SEvent.closeWatcher, SEvent.setRefreshing true, SEvent.refreshDecoratorsCall]
                ++ loopTr, none)

/-- The installed watcher's callback `(ev) => { if (ev === "change")
this._updateScriptVisibleProperties(); }`: whether a file-system event
re-runs the refresh. -/
def scriptWatcherTriggersRefresh (ev : Str) : Bool :=
  ev == "change".toList

/-- Embedding of `ScriptInspector.componentWillUnmount` (lines 102-108),
restricted to its watcher handling: `if (this._scriptWatcher)
this._scriptWatcher.close();`. -/
def componentWillUnmount (scriptWatcher : Option Str) : List SEvent :=
  match scriptWatcher with
  | some _ => [SEvent.closeWatcher]
  | none => []

theorem pollLoop_events (m e : Nat → Bool) :
    ∀ fuel k tr k' ex, pollLoop m e fuel k = some (tr, k', ex) →
      ∀ ev ∈ tr, (∃ i r, ev = SEvent.pathExistsCheck i r) ∨ ev = SEvent.waitMs 500 := by
  intro fuel
  induction fuel with
  | zero => intro k tr k' ex h; rw [pollLoop] at h; cases h
  | succ fuel ih =>
    intro k tr k' ex h
    rw [pollLoop] at h
    by_cases hm : m k = true
    · rw [if_pos hm] at h
      by_cases he : e k = true
      · rw [if_pos he] at h
        simp only [Option.some.injEq, Prod.mk.injEq] at h
        obtain ⟨htr, -, -⟩ := h
        subst htr
        intro ev hev
        cases hev with
        | head => exact Or.inl ⟨k, true, rfl⟩
        | tail _ h₂ => cases h₂
      · rw [if_neg he] at h
        cases hrec : pollLoop m e fuel (k + 1) with
        | none => rw [hrec] at h; cases h
        | some res =>
          obtain ⟨tr₁, k₁, ex₁⟩ := res
          rw [hrec] at h
          simp only [Option.some.injEq, Prod.mk.injEq] at h
          obtain ⟨htr, -, -⟩ := h
          subst htr
          intro ev hev
          cases hev with
          | head => exact Or.inl ⟨k, false, rfl⟩
          | tail _ h₂ =>
            cases h₂ with
            | head => exact Or.inr rfl
            | tail _ h₃ => exact ih (k + 1) tr₁ k₁ ex₁ hrec ev h₃
    · rw [if_neg hm] at h
      simp only [Option.some.injEq, Prod.mk.injEq] at h
      obtain ⟨htr, -, -⟩ := h
      subst htr
      intro ev hev
      cases hev

theorem pollLoop_exit (m e : Nat → Bool) :
    ∀ fuel k tr k' ex, pollLoop m e fuel k = some (tr, k', ex) →
      k < k' ∧
      (ex = LoopExit.fileExists → m (k' - 1) = true ∧ e (k' - 1) = true) ∧
      (ex = LoopExit.unmounted → m (k' - 1) = false) := by
  intro fuel
  induction fuel with
  | zero => intro k tr k' ex h; rw [pollLoop] at h; cases h
  | succ fuel ih =>
    intro k tr k' ex h
    rw [pollLoop] at h
    by_cases hm : m k = true
    · rw [if_pos hm] at h
      by_cases he : e k = true
      · rw [if_pos he] at h
        simp only [Option.some.injEq, Prod.mk.injEq] at h
        obtain ⟨-, hk, hex⟩ := h
        subst hk; subst hex
        refine ⟨Nat.lt_succ_self k, fun _ => ?_, fun hcontra => ?_⟩
        · simpa using ⟨hm, he⟩
        · cases hcontra
      · rw [if_neg he] at h
        cases hrec : pollLoop m e fuel (k + 1) with
        | none => rw [hrec] at h; cases h
        | some res =>
          obtain ⟨tr₁, k₁, ex₁⟩ := res
          rw [hrec] at h
          simp only [Option.some.injEq, Prod.mk.injEq] at h
          obtain ⟨-, hk, hex⟩ := h
          subst hk; subst hex
          obtain ⟨hlt, hfe, hun⟩ := ih (k + 1) tr₁ k₁ ex₁ hrec
          exact ⟨Nat.lt_of_succ_lt hlt, hfe, hun⟩
    · rw [if_neg hm] at h
      simp only [Option.some.injEq, Prod.mk.injEq] at h
      obtain ⟨-, hk, hex⟩ := h
      subst hk; subst hex
      refine ⟨Nat.lt_succ_self k, fun hcontra => ?_, fun _ => ?_⟩
      · cases hcontra
      · simpa using hm

/-- Claim C3: whenever a refresh run with a script attached ends with a
watcher installed, its trace is: the preliminary steps, then the waiting
phase — only `pathExists` polls and 500 ms waits — then the installation of
the watcher on the compiled-output path `jsPathOf` (the script name with its
extension replaced by `.js`, under the workspace `build` directory), then the
sandbox query `SandboxMain.GetInspectorValues` on that same path, and last
the storing of the result into the component state; the installed watcher
re-runs the refresh exactly on `"change"` events. -/
theorem updateScript_waits_watches_then_queries (env : ScriptEnv) (fuel : Nat)
    (tr : List SEvent) (p : Str)
    (hname : ¬env.scriptName = "None".toList)
    (hrun : updateScriptVisibleProperties env fuel = some (tr, some p)) :
    p = jsPathOf env.dirPath env.scriptName ∧
    ∃ loopTr,
      tr = [SEvent.closeWatcher, SEvent.setRefreshing true, SEvent.refreshDecoratorsCall]
            ++ loopTr
            ++ [SEvent.installWatcher p, SEvent.getInspectorValuesCall p,
                SEvent.storeInspectorValues] ∧
      (∀ ev ∈ loopTr, (∃ k r, ev = SEvent.pathExistsCheck k r) ∨ ev = SEvent.waitMs 500) ∧
      (∀ ev, scriptWatcherTriggersRefresh ev = true ↔ ev = "change".toList) := by
  rw [updateScriptVisibleProperties, if_neg hname] at hrun
  by_cases hidx : extensionIndexOf env.scriptName = -1
  · rw [if_pos hidx] at hrun
    simp at hrun
  · rw [if_neg hidx] at hrun
    cases hpoll : pollLoop env.mountedAt env.existsAt fuel 0 with
    | none => rw [hpoll] at hrun; cases hrun
    | some res =>
      obtain ⟨loopTr, k, ex⟩ := res
      rw [hpoll] at hrun
      dsimp only at hrun
      by_cases hm : env.mountedAt k = true
      · rw [if_pos hm] at hrun
        simp only [Option.some.injEq, Prod.mk.injEq] at hrun
        obtain ⟨htr, hp⟩ := hrun
        subst htr
        subst hp
        refine ⟨rfl, loopTr, by simp, ?_, ?_⟩
        · exact pollLoop_events env.mountedAt env.existsAt fuel 0 loopTr k ex hpoll
        · intro ev
          simp [scriptWatcherTriggersRefresh]
      · rw [if_neg hm] at hrun
        simp at hrun

/-- Claim C3, witness: a concrete run (workspace directory `"w"`, script
`"a.ts"`, file existing from the second poll on) evaluated through the
theorem. -/
theorem updateScript_waits_watches_then_queries_witness :
    "w/build/a.js".toList
        = jsPathOf ("w".toList) ("a.ts".toList) ∧
    ∃ loopTr,
      [SEvent.closeWatcher, SEvent.setRefreshing true, SEvent.refreshDecoratorsCall,
       SEvent.pathExistsCheck 0 false, SEvent.waitMs 500, SEvent.pathExistsCheck 1 true,
       SEvent.installWatcher ("w/build/a.js".toList),
       SEvent.getInspectorValuesCall ("w/build/a.js".toList), SEvent.storeInspectorValues]
        = [SEvent.closeWatcher, SEvent.setRefreshing true, SEvent.refreshDecoratorsCall]
            ++ loopTr
            ++ [SEvent.installWatcher ("w/build/a.js".toList),
                SEvent.getInspectorValuesCall ("w/build/a.js".toList),
                SEvent.storeInspectorValues] ∧
      (∀ ev ∈ loopTr, (∃ k r, ev = SEvent.pathExistsCheck k r) ∨ ev = SEvent.waitMs 500) ∧
      (∀ ev, scriptWatcherTriggersRefresh ev = true ↔ ev = "change".toList) :=
  updateScript_waits_watches_then_queries
    { scriptName := "a.ts".toList, dirPath := "w".toList,
      mountedAt := fun _ => true, existsAt := fun k => decide (0 < k) } 3
    [SEvent.closeWatcher, SEvent.setRefreshing true, SEvent.refreshDecoratorsCall,
     SEvent.pathExistsCheck 0 false, SEvent.waitMs 500, SEvent.pathExistsCheck 1 true,
     SEvent.installWatcher ("w/build/a.js".toList),
     SEvent.getInspectorValuesCall ("w/build/a.js".toList), SEvent.storeInspectorValues]
    ("w/build/a.js".toList) (by decide) (by decide)

/-- Claim C10: the polling loop stops only when the file exists (both
`isMounted` and `pathExists` read true at the last check) or when the
component is unmounted (`isMounted` read false); when the component unmounted
during the wait — `isMounted` being monotone, a component never re-mounts —
the run installs no watcher and never queries the sandbox; and
`componentWillUnmount` closes any installed watcher, so no watcher outlives
the component. -/
theorem pollLoop_unmount_resources :
    (∀ (m e : Nat → Bool) (fuel k : Nat) (tr : List SEvent) (k' : Nat) (ex : LoopExit),
        pollLoop m e fuel k = some (tr, k', ex) →
        (ex = LoopExit.fileExists → m (k' - 1) = true ∧ e (k' - 1) = true) ∧
        (ex = LoopExit.unmounted → m (k' - 1) = false)) ∧
    (∀ (env : ScriptEnv) (fuel : Nat) (loopTr : List SEvent) (k : Nat)
        (tr : List SEvent) (w : Option Str),
        (∀ j, env.mountedAt (j + 1) = true → env.mountedAt j = true) →
        pollLoop env.mountedAt env.existsAt fuel 0 = some (loopTr, k, LoopExit.unmounted) →
        updateScriptVisibleProperties env fuel = some (tr, w) →
        w = none ∧ (∀ q, SEvent.installWatcher q ∉ tr) ∧
          (∀ q, SEvent.getInspectorValuesCall q ∉ tr)) ∧
    (∀ wp : Str, componentWillUnmount (some wp) = [SEvent.closeWatcher]) := by
  refine ⟨?_, ?_, fun wp => rfl⟩
  · intro m e fuel k tr k' ex h
    exact (pollLoop_exit m e fuel k tr k' ex h).2
  · intro env fuel loopTr k tr w hmono hpoll hrun
    obtain ⟨hkpos, -, hun⟩ :=
      pollLoop_exit env.mountedAt env.existsAt fuel 0 loopTr k LoopExit.unmounted hpoll
    have hk1 : env.mountedAt (k - 1) = false := hun rfl
    have hmk : ¬env.mountedAt k = true := by
      intro hcontra
      have hstep : env.mountedAt (k - 1) = true := by
        refine hmono (k - 1) ?_
        rwa [Nat.sub_add_cancel hkpos]
      rw [hk1] at hstep
      cases hstep
    rw [updateScriptVisibleProperties] at hrun
    by_cases hname : env.scriptName = "None".toList
    · rw [if_pos hname] at hrun
      simp only [Option.some.injEq, Prod.mk.injEq] at hrun
      obtain ⟨htr, hw⟩ := hrun
      subst htr; subst hw
      exact ⟨rfl, fun q hq => by simp at hq, fun q hq => by simp at hq⟩
    · rw [if_neg hname] at hrun
      by_cases hidx : extensionIndexOf env.scriptName = -1
      · rw [if_pos hidx] at hrun
        simp only [Option.some.injEq, Prod.mk.injEq] at hrun
        obtain ⟨htr, hw⟩ := hrun
        subst htr; subst hw
        exact ⟨rfl, fun q hq => by simp at hq, fun q hq => by simp at hq⟩
      · rw [if_neg hidx, hpoll] at hrun
        dsimp only at hrun
        rw [if_neg hmk] at hrun
        simp only [Option.some.injEq, Prod.mk.injEq] at hrun
        obtain ⟨htr, hw⟩ := hrun
        subst htr; subst hw
        have hloop := pollLoop_events env.mountedAt env.existsAt fuel 0 loopTr k
          LoopExit.unmounted hpoll
        refine ⟨rfl, fun q hq => ?_, fun q hq => ?_⟩
        · rcases List.mem_append.1 hq with hpre | hin
          · simp at hpre
          · rcases hloop _ hin with ⟨i, r, heq⟩ | heq <;> cases heq
        · rcases List.mem_append.1 hq with hpre | hin
          · simp at hpre
          · rcases hloop _ hin with ⟨i, r, heq⟩ | heq <;> cases heq

/-- Claim C10, witness: a concrete run in which the component unmounts after
the first poll iteration, evaluated through the theorem, plus the watcher
close on unmount. -/
theorem pollLoop_unmount_resources_witness :
    ((LoopExit.unmounted = LoopExit.fileExists →
        (fun k => decide (k = 0)) (2 - 1) = true ∧ (fun _ : Nat => false) (2 - 1) = true) ∧
      (LoopExit.unmounted = LoopExit.unmounted →
        (fun k => decide (k = 0)) (2 - 1) = false)) ∧
    ((none : Option Str) = none ∧
      (∀ q, SEvent.installWatcher q ∉
        [SEvent.closeWatcher, SEvent.setRefreshing true, SEvent.refreshDecoratorsCall,
         SEvent.pathExistsCheck 0 false, SEvent.waitMs 500]) ∧
      (∀ q, SEvent.getInspectorValuesCall q ∉
        [SEvent.closeWatcher, SEvent.setRefreshing true, SEvent.refreshDecoratorsCall,
         SEvent.pathExistsCheck 0 false, SEvent.waitMs 500])) ∧
    componentWillUnmount (some ("w/build/a.js".toList)) = [SEvent.closeWatcher] :=
  ⟨pollLoop_unmount_resources.1 (fun k => decide (k = 0)) (fun _ => false) 3 0
      [SEvent.pathExistsCheck 0 false, SEvent.waitMs 500] 2 LoopExit.unmounted (by decide),
   pollLoop_unmount_resources.2.1
      { scriptName := "a.ts".toList, dirPath := "w".toList,
        mountedAt := fun k => decide (k = 0), existsAt := fun _ => false } 3
      [SEvent.pathExistsCheck 0 false, SEvent.waitMs 500] 2
      [SEvent.closeWatcher, SEvent.setRefreshing true, SEvent.refreshDecoratorsCall,
       SEvent.pathExistsCheck 0 false, SEvent.waitMs 500] none
      (fun j hj => by simp at hj) (by decide) (by decide),
   pollLoop_unmount_resources.2.2 ("w/build/a.js".toList)⟩

/-- The TypeScript compiler's module kinds relevant here (`ModuleKind.None`
is what the source passes). -/
inductive ModuleKind where
  | None
  | CommonJS
  | AMD
  | UMD
  | ES2015
deriving DecidableEq

/-- The TypeScript compiler's script targets relevant here. -/
inductive ScriptTarget where
  | ES3
  | ES5
  | ES2015
  | ESNext
deriving DecidableEq

/-- The compiler options passed to `transpile`. -/
structure TranspileOptions where
  module : ModuleKind
  target : ScriptTarget
  experimentalDecorators : Bool
deriving DecidableEq

/-- The observable actions of `ScriptInspector._refreshDecorators`
(script-inspector.tsx, lines 303-308): the UTF-8 `readFile`, the `transpile`
call with its options, and the `SandboxMain.ExecuteCode` call with the module
name it executes under. -/
inductive DecoratorsEvent where
  | readFileUtf8 (path : Str)
  | transpileCall (opts : TranspileOptions)
  | executeCode (moduleName : Str)
deriving DecidableEq

/-- Embedding of `ScriptInspector._refreshDecorators`:

```ts
const decorators = await readFile(join(Tools.GetAppPath(), "assets", "scripts", "decorators.ts"), { encoding: "utf-8" });
const transpiledScript = transpile(decorators, { module: ModuleKind.None, target: ScriptTarget.ES5, experimentalDecorators: true });
await SandboxMain.ExecuteCode(transpiledScript, "__editor__decorators__.js");
```

`selectedScriptName` is the script attached to the selected object; the method
can see it through `this` but never reads it, which is what claim C8's
"regardless of the selected object or attached script" is about. -/
def refreshDecorators (appPath selectedScriptName : Str) : List DecoratorsEvent :=
  [DecoratorsEvent.readFileUtf8
      (pathJoin (pathJoin (pathJoin appPath ("assets".toList)) ("scripts".toList))
        ("decorators.ts".toList)),
   DecoratorsEvent.transpileCall
      { module := ModuleKind.None, target := ScriptTarget.ES5, experimentalDecorators := true },
   DecoratorsEvent.executeCode ("__editor__decorators__.js".toList)]

/-- Claim C8: every decorator refresh performs the same three actions
whatever script is attached: it reads `assets/scripts/decorators.ts` under
the application path, transpiles with module kind `None`, target ES5 and
experimental decorators enabled, and executes the result in the sandbox under
the fixed module name `__editor__decorators__.js`. -/
theorem refreshDecorators_fixed (appPath s₁ s₂ : Str) :
    refreshDecorators appPath s₁ = refreshDecorators appPath s₂ ∧
    refreshDecorators appPath s₁ =
      [DecoratorsEvent.readFileUtf8
          (pathJoin (pathJoin (pathJoin appPath ("assets".toList)) ("scripts".toList))
            ("decorators.ts".toList)),
       DecoratorsEvent.transpileCall
          { module := ModuleKind.None, target := ScriptTarget.ES5,
            experimentalDecorators := true },
       DecoratorsEvent.executeCode ("__editor__decorators__.js".toList)] :=
  ⟨rfl, rfl⟩

/-- The exported inspector value types the `switch` of `_getInspectorValues`
handles (`iv.type` is the string `"number"`, `"string"`, `"boolean"`,
`"Vector2"`, `"Vector3"`, `"Color3"` or `"Color4"`). -/
inductive IVType where
  | number
  | string
  | boolean
  | vector2
  | vector3
  | color3
  | color4
deriving DecidableEq

/-- A value stored in `metadata.script.properties[key].value` or declared as
a script's default.  Numeric components are modelled as integers: the code
only copies them, never computes with them.  The colour alpha component is
optional — `{ r, g, b, a: … }` stores `undefined` for `a` when the default is
a `Color3` or when the zero-colour of a `Color3` is built. -/
inductive IVValue where
  | num (n : Int)
  | str (s : Str)
  | bool (b : Bool)
  | vec2 (x y : Int)
  | vec3 (x y z : Int)
  | color (r g b : Int) (a : Option Int)
deriving DecidableEq

/-- The JavaScript read `v.x` (also `v._x`) on a default value; reading the
field of a value of a mismatching variant yields `undefined` in the source
and is mapped to `0` here — such inputs are excluded by `wellTypedIV` in the
theorems, since the sandbox produces defaults of the declared type. -/
def fieldX : IVValue → Int
  | IVValue.vec2 x _ => x
  | IVValue.vec3 x _ _ => x
  | _ => 0

/-- The JavaScript read `v.y` (also `v._y`) on a default value. -/
def fieldY : IVValue → Int
  | IVValue.vec2 _ y => y
  | IVValue.vec3 _ y _ => y
  | _ => 0

/-- The JavaScript read `v._z` on a default value. -/
def fieldZ : IVValue → Int
  | IVValue.vec3 _ _ z => z
  | _ => 0

/-- The JavaScript read `v.r` on a default value. -/
def fieldR : IVValue → Int
  | IVValue.color r _ _ _ => r
  | _ => 0

/-- The JavaScript read `v.g` on a default value. -/
def fieldG : IVValue → Int
  | IVValue.color _ g _ _ => g
  | _ => 0

/-- The JavaScript read `v.b` on a default value. -/
def fieldB : IVValue → Int
  | IVValue.color _ _ b _ => b
  | _ => 0

/-- The JavaScript read `v.a` on a default value (`undefined`, i.e. `none`,
when absent). -/
def fieldA : IVValue → Option Int
  | IVValue.color _ _ _ a => a
  | _ => none

/-- An `IExportedInspectorValue` produced by the sandbox: the decorated
property's key, its optional display name, its declared type and its optional
declared default value. -/
structure IExportedInspectorValue where
  propertyKey : Str
  name : Option Str
  type : IVType
  defaultValue : Option IVValue
deriving DecidableEq

/-- A record of `metadata.script.properties`: `{ type: …, value: … }`. -/
structure ScriptProperty where
  type : IVType
  value : Option IVValue
deriving DecidableEq

/-- The kinds of form widgets `_getInspectorValues` pushes
(`InspectorNumber`, `InspectorString`, `InspectorBoolean`,
`InspectorVector2`, `InspectorVector3`, `InspectorColor`). -/
inductive WidgetKind where
  | number
  | string
  | boolean
  | vector2
  | vector3
  | color
deriving DecidableEq

/-- A rendered form widget: its kind, its label (`iv.name ?? iv.propertyKey`)
and the stored value it is bound to. -/
structure InspectorWidget where
  kind : WidgetKind
  label : Str
  value : IVValue
deriving DecidableEq

/-- Lookup in the `properties` dictionary, modelled as an association
list. -/
def lookupProp : List (Str × ScriptProperty) → Str → Option ScriptProperty
  | [], _ => none
  | (k, p) :: rest, key => if k == key then some p else lookupProp rest key

/-- Overwriting the record stored under a key. -/
def setProp : List (Str × ScriptProperty) → Str → ScriptProperty → List (Str × ScriptProperty)
  | [], _, _ => []
  | (k, p) :: rest, key, v =>
    if k == key then (k, v) :: setProp rest key v else (k, p) :: setProp rest key v

/-- `properties[iv.propertyKey] ??= { type: iv.type };` — inserts a fresh
record (with no value) when the key is absent. -/
def ensureProp (props : List (Str × ScriptProperty)) (key : Str) (ty : IVType) :
    List (Str × ScriptProperty) :=
  match lookupProp props key with
  | some _ => props
  | none => props ++ [(key, { type := ty, value := none })]

/-- One iteration of the `this.state.inspectorValues.forEach((iv) => …)` body
of `_getInspectorValues` (script-inspector.tsx, lines 185-249): ensures the
property record exists, initializes its `value` via `??=` following the
`switch (iv.type)` — declared default when present (field-by-field copies for
vectors and colours, with `a: iv.type === "Color4" ? 1 : undefined` in the
zero-colour), type-specific zero otherwise — and pushes the widget for the
declared type. -/
def processInspectorValue (props : List (Str × ScriptProperty))
    (iv : IExportedInspectorValue) : List (Str × ScriptProperty) × InspectorWidget :=
  let props1 := ensureProp props iv.propertyKey iv.type
  let property := (lookupProp props iv.propertyKey).getD { type := iv.type, value := none }
  let label := iv.name.getD iv.propertyKey
  match iv.type with
  | IVType.number =>
    let v := property.value.getD (iv.defaultValue.getD (IVValue.num 0))
    (setProp props1 iv.propertyKey { property with value := some v },
     { kind := WidgetKind.number, label := label, value := v })
  | IVType.string =>
    let v := property.value.getD (iv.defaultValue.getD (IVValue.str []))
    (setProp props1 iv.propertyKey { property with value := some v },
     { kind := WidgetKind.string, label := label, value := v })
  | IVType.boolean =>
    let v := property.value.getD (iv.defaultValue.getD (IVValue.bool false))
    (setProp props1 iv.propertyKey { property with value := some v },
     { kind := WidgetKind.boolean, label := label, value := v })
  | IVType.vector2 =>
    let v := property.value.getD (match iv.defaultValue with
      | some w => IVValue.vec2 (fieldX w) (fieldY w)
      | none => IVValue.vec2 0 0)
    (setProp props1 iv.propertyKey { property with value := some v },
     { kind := WidgetKind.vector2, label := label, value := v })
  | IVType.vector3 =>
    let v := property.value.getD (match iv.defaultValue with
      | some w => IVValue.vec3 (fieldX w) (fieldY w) (fieldZ w)
      | none => IVValue.vec3 0 0 0)
    (setProp props1 iv.propertyKey { property with value := some v },
     { kind := WidgetKind.vector3, label := label, value := v })
  | IVType.color3 =>
    let v := property.value.getD (match iv.defaultValue with
      | some w => IVValue.color (fieldR w) (fieldG w) (fieldB w) (fieldA w)
      | none => IVValue.color 0 0 0 none)
    (setProp props1 iv.propertyKey { property with value := some v },
     { kind := WidgetKind.color, label := label, value := v })
  | IVType.color4 =>
    let v := property.value.getD (match iv.defaultValue with
      | some w => IVValue.color (fieldR w) (fieldG w) (fieldB w) (fieldA w)
      | none => IVValue.color 0 0 0 (some 1))
    (setProp props1 iv.propertyKey { property with value := some v },
     { kind := WidgetKind.color, label := label, value := v })

/-- The `forEach` over all exported inspector values, threading the
properties dictionary and collecting the pushed widgets in order. -/
def getInspectorValuesCore :
    List (Str × ScriptProperty) → List IExportedInspectorValue →
      List (Str × ScriptProperty) × List InspectorWidget
  | props, [] => (props, [])
  | props, iv :: rest =>
    let r₁ := processInspectorValue props iv
    let r₂ := getInspectorValuesCore r₁.1 rest
    (r₂.1, r₁.2 :: r₂.2)

/-- Embedding of `ScriptInspector._getInspectorValues` (lines 175-254): with
no script attached (`name === "None"`) or no exported values, nothing is
rendered and the properties dictionary is untouched; otherwise every exported
value is processed in order. -/
def getInspectorValues (scriptName : Str) (props : List (Str × ScriptProperty))
    (ivs : List IExportedInspectorValue) :
    List (Str × ScriptProperty) × List InspectorWidget :=
  if scriptName = "None".toList ∨ ivs = [] then (props, [])
  else getInspectorValuesCore props ivs

/-- Spec-side: whether a default value has the shape of the declared type
(`Color3` defaults carry no alpha component, `Color4` defaults do). -/
def wellTypedValue : IVType → IVValue → Bool
  | IVType.number, IVValue.num _ => true
  | IVType.string, IVValue.str _ => true
  | IVType.boolean, IVValue.bool _ => true
  | IVType.vector2, IVValue.vec2 _ _ => true
  | IVType.vector3, IVValue.vec3 _ _ _ => true
  | IVType.color3, IVValue.color _ _ _ none => true
  | IVType.color4, IVValue.color _ _ _ (some _) => true
  | _, _ => false

/-- Spec-side: an exported inspector value whose declared default (when
present) matches its declared type. -/
def wellTypedIV (iv : IExportedInspectorValue) : Bool :=
  match iv.defaultValue with
  | none => true
  | some v => wellTypedValue iv.type v

/-- Spec-side: the type-specific zero of claim C6 — `0`, the empty string,
`false`, the zero vectors, and black with alpha `1` only for `Color4`. -/
def zeroValueFor : IVType → IVValue
  | IVType.number => IVValue.num 0
  | IVType.string => IVValue.str []
  | IVType.boolean => IVValue.bool false
  | IVType.vector2 => IVValue.vec2 0 0
  | IVType.vector3 => IVValue.vec3 0 0 0
  | IVType.color3 => IVValue.color 0 0 0 none
  | IVType.color4 => IVValue.color 0 0 0 (some 1)

/-- Spec-side: what claim C6 says gets stored when no value is present — the
declared default when present, the type-specific zero otherwise. -/
def specDefaultValue (iv : IExportedInspectorValue) : IVValue :=
  iv.defaultValue.getD (zeroValueFor iv.type)

/-- Spec-side: the widget kind claim C6 prescribes for each declared type. -/
def widgetKindForType : IVType → WidgetKind
  | IVType.number => WidgetKind.number
  | IVType.string => WidgetKind.string
  | IVType.boolean => WidgetKind.boolean
  | IVType.vector2 => WidgetKind.vector2
  | IVType.vector3 => WidgetKind.vector3
  | IVType.color3 => WidgetKind.color
  | IVType.color4 => WidgetKind.color

theorem lookupProp_append_of_none :
    ∀ (props l : List (Str × ScriptProperty)) (key : Str),
      lookupProp props key = none → lookupProp (props ++ l) key = lookupProp l key
  | [], _, _, _ => rfl
  | (k, p) :: rest, l, key, h => by
    rw [lookupProp] at h
    by_cases hk : (k == key) = true
    · rw [if_pos hk] at h; cases h
    · rw [if_neg hk] at h
      rw [List.cons_append, lookupProp, if_neg hk]
      exact lookupProp_append_of_none rest l key h

theorem lookupProp_setProp_of_isSome :
    ∀ (props : List (Str × ScriptProperty)) (key : Str) (v : ScriptProperty),
      (lookupProp props key).isSome = true →
      lookupProp (setProp props key v) key = some v
  | [], _, _, h => by rw [lookupProp] at h; cases h
  | (k, p) :: rest, key, v, h => by
    rw [lookupProp] at h
    rw [setProp]
    by_cases hk : (k == key) = true
    · rw [if_pos hk, lookupProp, if_pos hk]
    · rw [if_neg hk] at h
      rw [if_neg hk, lookupProp, if_neg hk]
      exact lookupProp_setProp_of_isSome rest key v h

theorem lookupProp_ensure (props : List (Str × ScriptProperty)) (key : Str) (ty : IVType) :
    lookupProp (ensureProp props key ty) key
      = some ((lookupProp props key).getD { type := ty, value := none }) := by
  rw [ensureProp]
  cases h : lookupProp props key with
  | some p => simp [h]
  | none =>
    rw [lookupProp_append_of_none props _ key h, lookupProp]
    simp

theorem lookupProp_ensure_setProp (props : List (Str × ScriptProperty)) (key : Str)
    (ty : IVType) (v : ScriptProperty) :
    lookupProp (setProp (ensureProp props key ty) key v) key = some v := by
  apply lookupProp_setProp_of_isSome
  rw [lookupProp_ensure]
  rfl

theorem processInspectorValue_kind (props : List (Str × ScriptProperty))
    (iv : IExportedInspectorValue) :
    (processInspectorValue props iv).2.kind = widgetKindForType iv.type := by
  obtain ⟨key, nm, ty, dv⟩ := iv
  cases ty <;> rfl

theorem processInspectorValue_initializes (props : List (Str × ScriptProperty))
    (iv : IExportedInspectorValue) (hwt : wellTypedIV iv = true)
    (hnone : (lookupProp props iv.propertyKey).bind (fun p => p.value) = none) :
    (lookupProp (processInspectorValue props iv).1 iv.propertyKey).bind (fun p => p.value)
      = some (specDefaultValue iv) := by
  obtain ⟨key, nm, ty, dv⟩ := iv
  have hval : ((lookupProp props key).getD { type := ty, value := none }).value = none := by
    cases h : lookupProp props key with
    | none => rfl
    | some p =>
      rw [h] at hnone
      simpa using hnone
  rw [wellTypedIV] at hwt
  cases ty <;>
    simp only [processInspectorValue] <;>
    rw [lookupProp_ensure_setProp] <;>
    simp only [Option.bind_some, Option.some.injEq, hval, Option.getD_none] <;>
    cases dv with
    | none => simp [specDefaultValue, zeroValueFor]
    | some w =>
      cases w <;> simp_all [wellTypedValue, specDefaultValue, fieldX, fieldY, fieldZ,
        fieldR, fieldG, fieldB, fieldA]

theorem getInspectorValuesCore_kinds :
    ∀ (ivs : List IExportedInspectorValue) (props : List (Str × ScriptProperty)),
      (getInspectorValuesCore props ivs).2.map InspectorWidget.kind
        = ivs.map fun iv => widgetKindForType iv.type
  | [], _ => rfl
  | iv :: rest, props => by
    rw [getInspectorValuesCore]
    simp only [List.map_cons, List.map]
    rw [processInspectorValue_kind, getInspectorValuesCore_kinds rest]

/-- Claim C6: each exported inspector value is rendered as the form widget of
its declared type, and — with a script attached and a nonempty value list —
the sequence of rendered widget kinds is exactly the sequence of declared
types; when no value is stored yet for a property, the stored value is
initialized to the declared default when present, otherwise to the
type-specific zero (`0`, `""`, `false`, zero vectors, black, alpha `1` only
for `Color4`). -/
theorem inspectorValues_typed_widgets_and_defaults :
    (∀ (props : List (Str × ScriptProperty)) (iv : IExportedInspectorValue),
        wellTypedIV iv = true →
        (processInspectorValue props iv).2.kind = widgetKindForType iv.type ∧
        ((lookupProp props iv.propertyKey).bind (fun p => p.value) = none →
          (lookupProp (processInspectorValue props iv).1 iv.propertyKey).bind (fun p => p.value)
            = some (specDefaultValue iv))) ∧
    (∀ (scriptName : Str) (props : List (Str × ScriptProperty))
        (ivs : List IExportedInspectorValue),
        ¬scriptName = "None".toList → ¬ivs = [] →
        (getInspectorValues scriptName props ivs).2.map InspectorWidget.kind
          = ivs.map fun iv => widgetKindForType iv.type) := by
  constructor
  · intro props iv hwt
    exact ⟨processInspectorValue_kind props iv,
      fun hnone => processInspectorValue_initializes props iv hwt hnone⟩
  · intro scriptName props ivs hname hne
    rw [getInspectorValues, if_neg (not_or.mpr ⟨hname, hne⟩)]
    exact getInspectorValuesCore_kinds ivs props

/-- Claim C6, witness: a `Vector3` value with a declared default and a
`Color4` value without one, both processed from an empty store, plus the
widget-kind sequence of a two-value list. -/
theorem inspectorValues_typed_widgets_and_defaults_witness :
    ((processInspectorValue []
        { propertyKey := "dir".toList, name := none, type := IVType.vector3,
          defaultValue := some (IVValue.vec3 1 2 3) }).2.kind
        = widgetKindForType IVType.vector3 ∧
      ((lookupProp [] ("dir".toList)).bind (fun p => p.value) = none →
        (lookupProp (processInspectorValue []
            { propertyKey := "dir".toList, name := none, type := IVType.vector3,
              defaultValue := some (IVValue.vec3 1 2 3) }).1 ("dir".toList)).bind
              (fun p => p.value)
          = some (specDefaultValue
              { propertyKey := "dir".toList, name := none, type := IVType.vector3,
                defaultValue := some (IVValue.vec3 1 2 3) }))) ∧
    ((processInspectorValue []
        { propertyKey := "tint".toList, name := none, type := IVType.color4,
          defaultValue := none }).2.kind
        = widgetKindForType IVType.color4 ∧
      ((lookupProp [] ("tint".toList)).bind (fun p => p.value) = none →
        (lookupProp (processInspectorValue []
            { propertyKey := "tint".toList, name := none, type := IVType.color4,
              defaultValue := none }).1 ("tint".toList)).bind (fun p => p.value)
          = some (specDefaultValue
              { propertyKey := "tint".toList, name := none, type := IVType.color4,
                defaultValue := none }))) ∧
    (getInspectorValues ("s.ts".toList) []
        [{ propertyKey := "dir".toList, name := none, type := IVType.vector3,
           defaultValue := some (IVValue.vec3 1 2 3) },
         { propertyKey := "tint".toList, name := none, type := IVType.color4,
           defaultValue := none }]).2.map InspectorWidget.kind
      = ([{ propertyKey := "dir".toList, name := none, type := IVType.vector3,
            defaultValue := some (IVValue.vec3 1 2 3) },
          { propertyKey := "tint".toList, name := none, type := IVType.color4,
            defaultValue := none }] : List IExportedInspectorValue).map
          (fun iv => widgetKindForType iv.type) :=
  ⟨inspectorValues_typed_widgets_and_defaults.1 []
      { propertyKey := "dir".toList, name := none, type := IVType.vector3,
        defaultValue := some (IVValue.vec3 1 2 3) } (by decide),
   inspectorValues_typed_widgets_and_defaults.1 []
      { propertyKey := "tint".toList, name := none, type := IVType.color4,
        defaultValue := none } (by decide),
   inspectorValues_typed_widgets_and_defaults.2 ("s.ts".toList) [] _
      (by decide) (by decide)⟩

end ScriptInspector

end EditorProof
